import Mathlib

/-!
Shallow embedding of `src/spacial.rs` from `bevy_kira_audio` (spacial audio
subsystem).  `f32`/`f64` arithmetic is idealized as exact real arithmetic on
`ℝ`; vector operations (`glam::Vec3`) are transliterated from their `glam`
definitions.  Sound-instance handles are modelled as natural numbers and the
`Assets<AudioInstance>` registry as an association list.  A tiny
IEEE-754-extended value type `F` is used where a claim is about non-finite
float results (division by a zero distance).
-/

namespace Spacial

open Real

/-- Rust source, `spacial.rs` lines 13-16:
`pub fn lerp(lhs: f32, rhs: f32, s: f32) -> f32 { lhs + ((rhs - lhs) * s) }` -/
def lerp (lhs rhs s : ℝ) : ℝ := lhs + ((rhs - lhs) * s)

/-- Three-dimensional vector, modelling `glam::Vec3` with real components. -/
structure Vec3 where
  x : ℝ
  y : ℝ
  z : ℝ

/-- Component-wise subtraction, `glam` `Sub for Vec3`. -/
def Vec3.sub (a b : Vec3) : Vec3 := ⟨a.x - b.x, a.y - b.y, a.z - b.z⟩

/-- Negation, `glam` `Neg for Vec3`. -/
def Vec3.neg (a : Vec3) : Vec3 := ⟨-a.x, -a.y, -a.z⟩

/-- Scalar multiplication, `glam` `Mul<f32> for Vec3`. -/
def Vec3.mul (a : Vec3) (s : ℝ) : Vec3 := ⟨a.x * s, a.y * s, a.z * s⟩

/-- The zero vector, `glam` `Vec3::ZERO`. -/
def Vec3.zero : Vec3 := ⟨0, 0, 0⟩

/-- Dot product, `glam` `Vec3::dot`. -/
def Vec3.dot (a b : Vec3) : ℝ := a.x * b.x + a.y * b.y + a.z * b.z

/-- Squared length, `glam` `Vec3::length_squared = self.dot(self)`. -/
def Vec3.length_squared (a : Vec3) : ℝ := a.dot a

/-- Length, `glam` `Vec3::length = sqrt(self.dot(self))`. -/
noncomputable def Vec3.length (a : Vec3) : ℝ := Real.sqrt a.length_squared

/-- Normalization-or-zero, `glam` `Vec3::normalize_or_zero`:
`let rcp = 1/length; if rcp.is_finite() && rcp > 0.0 { self * rcp } else { ZERO }`.
Over `ℝ` the reciprocal is always "finite"; `1 / length > 0` iff `length > 0`
(Lean's `1 / 0 = 0` agrees with the `else` branch being taken at length 0). -/
noncomputable def Vec3.normalize_or_zero (a : Vec3) : Vec3 :=
  if 0 < 1 / a.length then a.mul (1 / a.length) else Vec3.zero

/-- Unsigned angle, `glam` `Vec3::angle_between`:
`acos_approx(self.dot(rhs) / sqrt(self.length_squared() * rhs.length_squared()))`.
`acos_approx` clamps its argument to `[-1, 1]`, as `Real.arccos` does. -/
noncomputable def Vec3.angle_between (a b : Vec3) : ℝ :=
  Real.arccos (a.dot b / Real.sqrt (a.length_squared * b.length_squared))

/-- World-space transform as consumed by the subsystem (the external
"Transform supplier"): a position and the derived `forward` / `right` unit
directions of `bevy`'s `GlobalTransform`. -/
structure GlobalTransform where
  translation : Vec3
  forward : Vec3
  right : Vec3

/-- In `bevy`, `Transform::back() == -Transform::forward()`. -/
def GlobalTransform.back (t : GlobalTransform) : Vec3 := t.forward.neg

/-- Playback states of `kira::sound::PlaybackState`. -/
inductive PlaybackState where
  | playing
  | pausing
  | paused
  | stopping
  | stopped
deriving DecidableEq, Repr

/-- A live sound instance as observable through the store interface used by
`spacial.rs`: its current volume and panning targets and its playback state.
`set_volume` / `set_panning` with the default (instantaneous) tween are
modelled as setting the target fields. -/
structure AudioInstance where
  volume : ℝ
  panning : ℝ
  state : PlaybackState

/-- The `Assets<AudioInstance>` registry, keyed by handle (keys are unique). -/
abbrev Assets := List (Nat × AudioInstance)

/-- Lookup of `Assets::get` / `Assets::get_mut`. -/
def Assets.get (a : Assets) (h : Nat) : Option AudioInstance := List.lookup h a

/-- Effect of `instance.set_volume(v, default); instance.set_panning(p, default)`
on the entry for handle `h` (identity when `h` has no entry, matching the
`if let Some(instance) = audio_instances.get_mut(instance)` guard). -/
def Assets.setVolumePanning (a : Assets) (h : Nat) (v p : ℝ) : Assets :=
  a.map (fun q => if q.1 = h then (q.1, { q.2 with volume := v, panning := p }) else q)

/-- Rust `AudioEmitter` component (`spacial.rs` lines 22-38). -/
structure AudioEmitter where
  self_occlusion : ℝ
  range : ℝ
  instances : List Nat

/-- Rust `AudioReceiver` component (`spacial.rs` lines 53-58). -/
structure AudioReceiver where
  self_occlusion : ℝ

/-- Rust `SpacialAudio` configuration resource (`spacial.rs` lines 64-68). -/
structure SpacialAudio where
  max_distance : ℝ

/-- Line 78: `let sound_path = emitter_transform.translation() - receiver_transform.translation()`. -/
def soundPath (receiver_transform emitter_transform : GlobalTransform) : Vec3 :=
  emitter_transform.translation.sub receiver_transform.translation

/-- Lines 79-83: `let volume = 4. * emitter.range / sound_path.length();`
then `let direct_volume = 4. * volume * lerp(...) * lerp(...)`. -/
noncomputable def directVolume (receiver_transform emitter_transform : GlobalTransform)
    (receiver : AudioReceiver) (emitter : AudioEmitter) : ℝ :=
  let sound_path := soundPath receiver_transform emitter_transform
  let volume := 4 * emitter.range / sound_path.length
  4 * volume *
      lerp 1 (emitter_transform.back.dot sound_path.normalize_or_zero * 0.5 + 0.5)
        emitter.self_occlusion *
      lerp 1 (receiver_transform.forward.dot sound_path.normalize_or_zero * 0.5 + 0.5)
        receiver.self_occlusion

/-- Line 85: `let ambient_volume = volume / sound_path.length();` (dead value
in the source: computed, never used). -/
noncomputable def ambientVolume (receiver_transform emitter_transform : GlobalTransform)
    (emitter : AudioEmitter) : ℝ :=
  let sound_path := soundPath receiver_transform emitter_transform
  let volume := 4 * emitter.range / sound_path.length
  volume / sound_path.length

/-- Lines 90-91: `let right_ear_angle = receiver_transform.right().angle_between(sound_path);
let panning = (right_ear_angle.cos() + 1.) / 2.;`. -/
noncomputable def panningOf (receiver_transform : GlobalTransform) (sound_path : Vec3) : ℝ :=
  (Real.cos (receiver_transform.right.angle_between sound_path) + 1) / 2

/-- Body of the per-emitter loop of `SpacialAudio::update` (lines 77-97):
compute `direct_volume`, `ambient_volume` and `panning`, then write volume and
panning into every instance of the emitter found in the store. -/
noncomputable def writeEmitter (receiver_transform : GlobalTransform) (receiver : AudioReceiver)
    (emitter_transform : GlobalTransform) (emitter : AudioEmitter)
    (audio_instances : Assets) : Assets :=
  let direct_volume := directVolume receiver_transform emitter_transform receiver emitter
  let _ambient_volume := ambientVolume receiver_transform emitter_transform emitter
  let panning := panningOf receiver_transform (soundPath receiver_transform emitter_transform)
  emitter.instances.foldl
    (fun acc h => acc.setVolumePanning h direct_volume panning) audio_instances

/-- `SpacialAudio::update` (lines 71-98): iterate all emitters against the one
receiver.  `self` is received but unused (the `max_distance` use is commented
out in the source). -/
noncomputable def SpacialAudio.update (_self : SpacialAudio)
    (receiver_transform : GlobalTransform) (receiver : AudioReceiver)
    (emitters : List (GlobalTransform × AudioEmitter))
    (audio_instances : Assets) : Assets :=
  emitters.foldl
    (fun acc p => writeEmitter receiver_transform receiver p.1 p.2 acc) audio_instances

/-- Variant of `writeEmitter` with the dead `ambient_volume` binding removed,
used to state that the ambient computation has no observable effect. -/
noncomputable def writeEmitterNoAmbient (receiver_transform : GlobalTransform)
    (receiver : AudioReceiver) (emitter_transform : GlobalTransform) (emitter : AudioEmitter)
    (audio_instances : Assets) : Assets :=
  let direct_volume := directVolume receiver_transform emitter_transform receiver emitter
  let panning := panningOf receiver_transform (soundPath receiver_transform emitter_transform)
  emitter.instances.foldl
    (fun acc h => acc.setVolumePanning h direct_volume panning) audio_instances

/-- Model of `bevy` `Query::get_single`: succeeds exactly when the query
matches one entity. -/
def get_single {α : Type} : List α → Option α
  | [a] => some a
  | _ => none

/-- System `run_spacial_audio` (lines 103-112): run the update only when
`receiver.get_single()` succeeds, otherwise leave the store untouched. -/
noncomputable def run_spacial_audio (spacial_audio : SpacialAudio)
    (receiver : List (GlobalTransform × AudioReceiver))
    (emitters : List (GlobalTransform × AudioEmitter))
    (audio_instances : Assets) : Assets :=
  match get_single receiver with
  | some p => spacial_audio.update p.1 p.2 emitters audio_instances
  | none => audio_instances

/-- ECS state the two systems touch: the emitter entities (with their
transforms) and the `Assets<AudioInstance>` resource. -/
structure World where
  emitters : List (GlobalTransform × AudioEmitter)
  store : Assets

/-- System `cleanup_stopped_spacial_instances` (lines 114-128): for every
emitter, retain a handle iff the store has no entry for it or the entry's
state is not `Stopped`.  The store resource is taken (`ResMut`) but only read,
so the resulting world keeps it unchanged. -/
def cleanup_stopped_spacial_instances (w : World) : World :=
  { w with
    emitters := w.emitters.map (fun p =>
      (p.1, { p.2 with
        instances := p.2.instances.filter (fun handle =>
          match w.store.get handle with
          | some inst => inst.state != PlaybackState.stopped
          | none => true) })) }

/-- Modelled from the spec: the plugin registration that schedules
`run_spacial_audio` and `cleanup_stopped_spacial_instances` is outside the
provided sources; per the spec the `SpacialAudio` resource is a feature
toggle, and when it is absent neither system executes during the tick. -/
noncomputable def spacialTick (config : Option SpacialAudio)
    (receivers : List (GlobalTransform × AudioReceiver)) (w : World) : World :=
  match config with
  | none => w
  | some s =>
    cleanup_stopped_spacial_instances
      { w with store := run_spacial_audio s receivers w.emitters w.store }

lemma get_cons (qk : Nat) (qi : AudioInstance) (t : Assets) (k : Nat) :
    Assets.get ((qk, qi) :: t) k = if k = qk then some qi else Assets.get t k := by
  simp only [Assets.get, List.lookup]
  by_cases hk : k = qk
  · subst hk
    simp
  · rw [beq_eq_false_iff_ne.mpr hk, if_neg hk]

lemma setVolumePanning_cons (qk : Nat) (qi : AudioInstance) (t : Assets) (h : Nat) (v p : ℝ) :
    Assets.setVolumePanning ((qk, qi) :: t) h v p =
      (if qk = h then (qk, { qi with volume := v, panning := p }) else (qk, qi)) ::
        Assets.setVolumePanning t h v p := rfl

lemma get_setVolumePanning (a : Assets) (h k : Nat) (v p : ℝ) :
    (a.setVolumePanning h v p).get k =
      if k = h then (a.get k).map (fun i => { i with volume := v, panning := p })
      else a.get k := by
  induction a with
  | nil => simp [Assets.setVolumePanning, Assets.get]
  | cons q t ih =>
    obtain ⟨qk, qi⟩ := q
    rw [setVolumePanning_cons]
    by_cases hqh : qk = h
    · simp only [if_pos hqh, get_cons]
      by_cases hkq : k = qk
      · have hkh : k = h := hkq.trans hqh
        simp only [if_pos hkq, if_pos hkh]
        rfl
      · have hkh : ¬ k = h := fun hh => hkq (hh.trans hqh.symm)
        simp only [if_neg hkq, if_neg hkh, ih]
    · simp only [if_neg hqh, get_cons]
      by_cases hkq : k = qk
      · have hkh : ¬ k = h := fun hh => hqh (hkq.symm.trans hh)
        simp only [if_pos hkq, if_neg hkh]
      · simp only [if_neg hkq, ih]

lemma get_foldl_setVolumePanning (hs : List Nat) (a : Assets) (h : Nat) (v p : ℝ) :
    (hs.foldl (fun acc k => acc.setVolumePanning k v p) a).get h =
      if h ∈ hs then (a.get h).map (fun i => { i with volume := v, panning := p })
      else a.get h := by
  induction hs generalizing a with
  | nil => simp
  | cons k t ih =>
    simp only [List.foldl_cons, List.mem_cons]
    rw [ih, get_setVolumePanning]
    by_cases hhk : h = k
    · subst hhk
      by_cases hht : h ∈ t
      · simp only [hht, if_true, eq_self_iff_true, true_or]
        cases a.get h <;> rfl
      · simp [hht]
    · by_cases hht : h ∈ t
      · simp [hhk, hht]
      · simp [hhk, hht]

/-- The per-emitter pass writes `direct_volume` and `panning` to exactly the
handles in the emitter's instance list that exist in the store. -/
lemma writeEmitter_get (rt : GlobalTransform) (r : AudioReceiver) (et : GlobalTransform)
    (e : AudioEmitter) (a : Assets) (h : Nat) :
    (writeEmitter rt r et e a).get h =
      if h ∈ e.instances then
        (a.get h).map (fun i =>
          { i with volume := directVolume rt et r e,
                   panning := panningOf rt (soundPath rt et) })
      else a.get h :=
  get_foldl_setVolumePanning e.instances a h _ _

lemma length_squared_nonneg (v : Vec3) : 0 ≤ v.length_squared := by
  simp only [Vec3.length_squared, Vec3.dot]
  nlinarith [sq_nonneg v.x, sq_nonneg v.y, sq_nonneg v.z]

lemma length_nonneg (v : Vec3) : 0 ≤ v.length := Real.sqrt_nonneg _

lemma sqrt_length_squared_mul (a b : Vec3) :
    Real.sqrt (a.length_squared * b.length_squared) = a.length * b.length := by
  rw [Vec3.length, Vec3.length, ← Real.sqrt_mul (length_squared_nonneg a)]

/-- Cauchy-Schwarz for the component-wise dot product, via the Lagrange
identity. -/
lemma dot_sq_le (a b : Vec3) : (a.dot b) ^ 2 ≤ a.length_squared * b.length_squared := by
  simp only [Vec3.dot, Vec3.length_squared]
  nlinarith [sq_nonneg (a.x * b.y - a.y * b.x), sq_nonneg (a.x * b.z - a.z * b.x),
    sq_nonneg (a.y * b.z - a.z * b.y)]

lemma abs_dot_le (a b : Vec3) : |a.dot b| ≤ a.length * b.length := by
  rw [← sqrt_length_squared_mul, ← Real.sqrt_sq_eq_abs]
  exact Real.sqrt_le_sqrt (dot_sq_le a b)

/-- The cosine recovered from `angle_between` is exactly the normalized dot
product (with Lean's `x / 0 = 0` agreeing with the arccos-of-0 branch when a
length vanishes). -/
lemma cos_angle_between (a b : Vec3) :
    Real.cos (a.angle_between b) = a.dot b / (a.length * b.length) := by
  rw [Vec3.angle_between, sqrt_length_squared_mul]
  rcases eq_or_lt_of_le (mul_nonneg (length_nonneg a) (length_nonneg b)) with h | h
  · rw [← h, div_zero, Real.arccos_zero, Real.cos_pi_div_two]
  · have habs := abs_dot_le a b
    apply Real.cos_arccos
    · rw [le_div_iff₀ h]
      have := neg_abs_le (a.dot b)
      linarith
    · rw [div_le_one h]
      have := le_abs_self (a.dot b)
      linarith

/-- Predicate: the store holds an entry for `h` whose state is `Stopped`
(the condition under which cleanup drops `h`). -/
def storeStopped (a : Assets) (h : Nat) : Prop :=
  ∃ i, a.get h = some i ∧ i.state = PlaybackState.stopped

lemma retain_true_iff (a : Assets) (h : Nat) :
    ((match a.get h with
      | some inst => inst.state != PlaybackState.stopped
      | none => true) = true) ↔ ¬ storeStopped a h := by
  unfold storeStopped
  cases hg : a.get h with
  | none => simp
  | some i =>
    simp only [bne_iff_ne, ne_eq, Option.some.injEq]
    constructor
    · rintro hne ⟨j, rfl, hst⟩
      exact hne hst
    · intro hns hst
      exact hns ⟨i, rfl, hst⟩

/-- The cleanup pass (C2): it drops a handle from an emitter's list exactly
when the store reports it `Stopped`, it retains handles absent from the store,
and it leaves the store itself unchanged. -/
theorem cleanup_retains_iff_not_stopped (w : World) :
    List.Forall₂
      (fun p q => ∀ h : Nat,
        h ∈ q.2.instances ↔ h ∈ p.2.instances ∧ ¬ storeStopped w.store h)
      w.emitters (cleanup_stopped_spacial_instances w).emitters ∧
    (cleanup_stopped_spacial_instances w).store = w.store := by
  constructor
  · unfold cleanup_stopped_spacial_instances
    simp only
    induction w.emitters with
    | nil => exact List.Forall₂.nil
    | cons p t ih =>
      refine List.Forall₂.cons ?_ ih
      intro h
      simp only [List.mem_filter]
      rw [retain_true_iff]
  · rfl

/-- Cleanup produces, for every emitter, an order-preserving subsequence of
its original instance list (C10): retained handles were present before, their
relative order is unchanged, and no handle is added. -/
theorem cleanup_instances_sublist (w : World) :
    List.Forall₂
      (fun p q => p.1 = q.1 ∧ q.2.instances.Sublist p.2.instances)
      w.emitters (cleanup_stopped_spacial_instances w).emitters := by
  unfold cleanup_stopped_spacial_instances
  simp only
  induction w.emitters with
  | nil => exact List.Forall₂.nil
  | cons p t ih =>
    exact List.Forall₂.cons ⟨rfl, List.filter_sublist _⟩ ih

/-- With zero receivers or two or more receivers, `run_spacial_audio` leaves
the store untouched (C3): `get_single` fails and the update never runs. -/
theorem run_spacial_audio_no_receiver_noop (s : SpacialAudio)
    (receivers : List (GlobalTransform × AudioReceiver))
    (emitters : List (GlobalTransform × AudioEmitter)) (a : Assets)
    (hn : receivers.length ≠ 1) :
    run_spacial_audio s receivers emitters a = a := by
  match receivers with
  | [] => rfl
  | [r] => exact absurd rfl hn
  | r₁ :: r₂ :: t => rfl

/-- Witness for `run_spacial_audio_no_receiver_noop`: zero receivers and two
receivers, on a concrete world. -/
theorem run_spacial_audio_no_receiver_noop_witness :
    (([] : List (GlobalTransform × AudioReceiver)).length ≠ 1 ∧
      run_spacial_audio ⟨25⟩ []
        [(⟨⟨1, 0, 0⟩, ⟨0, 0, 1⟩, ⟨1, 0, 0⟩⟩, ⟨0, 5, [0]⟩)]
        [(0, ⟨1, 0.5, PlaybackState.playing⟩)] =
        [(0, ⟨1, 0.5, PlaybackState.playing⟩)]) ∧
    (([(⟨⟨0, 0, 0⟩, ⟨0, 0, 1⟩, ⟨1, 0, 0⟩⟩, AudioReceiver.mk 0),
        (⟨⟨2, 0, 0⟩, ⟨0, 0, 1⟩, ⟨1, 0, 0⟩⟩, AudioReceiver.mk 0)] :
        List (GlobalTransform × AudioReceiver)).length ≠ 1 ∧
      run_spacial_audio ⟨25⟩
        [(⟨⟨0, 0, 0⟩, ⟨0, 0, 1⟩, ⟨1, 0, 0⟩⟩, AudioReceiver.mk 0),
          (⟨⟨2, 0, 0⟩, ⟨0, 0, 1⟩, ⟨1, 0, 0⟩⟩, AudioReceiver.mk 0)]
        [(⟨⟨1, 0, 0⟩, ⟨0, 0, 1⟩, ⟨1, 0, 0⟩⟩, ⟨0, 5, [0]⟩)]
        [(0, ⟨1, 0.5, PlaybackState.playing⟩)] =
        [(0, ⟨1, 0.5, PlaybackState.playing⟩)]) := by
  refine ⟨⟨by decide, ?_⟩, ⟨by decide, ?_⟩⟩
  · exact run_spacial_audio_no_receiver_noop _ _ _ _ (by decide)
  · exact run_spacial_audio_no_receiver_noop _ _ _ _ (by decide)

/-- When the `SpacialAudio` configuration resource is absent, the whole
subsystem is a no-op for the tick (C4): neither the update pass nor the
cleanup pass mutates anything. -/
theorem spacialTick_none_noop
    (receivers : List (GlobalTransform × AudioReceiver)) (w : World) :
    spacialTick none receivers w = w := rfl

/-- The values the update pass writes are independent of `max_distance`, and
the dead `ambient_volume` computation has no observable effect (C9): two runs
differing only in `max_distance` produce identical stores, and the per-emitter
write equals its ambient-free variant. -/
theorem update_independent_of_max_distance_and_ambient :
    (∀ (md md' : ℝ) (rt : GlobalTransform) (r : AudioReceiver)
        (es : List (GlobalTransform × AudioEmitter)) (a : Assets),
      SpacialAudio.update ⟨md⟩ rt r es a = SpacialAudio.update ⟨md'⟩ rt r es a) ∧
    (∀ (rt : GlobalTransform) (r : AudioReceiver) (et : GlobalTransform)
        (e : AudioEmitter) (a : Assets),
      writeEmitter rt r et e a = writeEmitterNoAmbient rt r et e a) :=
  ⟨fun _ _ _ _ _ _ => rfl, fun _ _ _ _ _ => rfl⟩

/-- Basic algebra of the interpolation helper and the directional factors
(C8): `lerp a b 0 = a`, `lerp a b 1 = b`, so a `self_occlusion` of `0` makes a
directional factor exactly `1` and a `self_occlusion` of `1` makes it exactly
the raw dot-based factor `dot * 0.5 + 0.5`. -/
theorem lerp_endpoints_and_occlusion_factors :
    (∀ a b : ℝ, lerp a b 0 = a ∧ lerp a b 1 = b) ∧
    (∀ d : ℝ, lerp 1 (d * 0.5 + 0.5) 0 = 1) ∧
    (∀ d : ℝ, lerp 1 (d * 0.5 + 0.5) 1 = d * 0.5 + 0.5) := by
  refine ⟨fun a b => ⟨?_, ?_⟩, fun d => ?_, fun d => ?_⟩ <;> simp [lerp]

lemma sqrt_eval {x y : ℝ} (hy : 0 ≤ y) (h : x = y ^ 2) : Real.sqrt x = y := by
  rw [h, Real.sqrt_sq hy]

lemma normalize_or_zero_eq (v : Vec3) (l : ℝ) (hl : 0 < l) (h : v.length = l) :
    v.normalize_or_zero = v.mul (1 / l) := by
  rw [Vec3.normalize_or_zero, h, if_pos (by positivity)]

/-- Panning is the rescaled cosine of the angle between the listener-right
vector and the emitter direction (C6): flipping the sign of the right-axis
projection (at equal distance) maps panning to one minus itself, and a
perpendicular emitter direction gives exactly 0.5. -/
theorem panning_cosine_and_symmetry :
    (∀ (rt : GlobalTransform) (sp : Vec3),
      panningOf rt sp = (Real.cos (rt.right.angle_between sp) + 1) / 2) ∧
    (∀ (rt : GlobalTransform) (sp sp' : Vec3),
      sp'.length = sp.length → rt.right.dot sp' = -(rt.right.dot sp) →
      panningOf rt sp' = 1 - panningOf rt sp) ∧
    (∀ (rt : GlobalTransform) (sp : Vec3),
      rt.right.dot sp = 0 → panningOf rt sp = 0.5) := by
  refine ⟨fun rt sp => rfl, fun rt sp sp' hlen hdot => ?_, fun rt sp hdot => ?_⟩
  · unfold panningOf
    rw [cos_angle_between, cos_angle_between, hlen, hdot, neg_div]
    ring
  · unfold panningOf
    rw [cos_angle_between, hdot, zero_div]
    norm_num

/-- Witness for `panning_cosine_and_symmetry`: listener right `+X`; mirrored
emitter directions `(3,4,0)` / `(-3,4,0)` and the perpendicular `(0,0,7)`. -/
theorem panning_cosine_and_symmetry_witness :
    ((⟨-3, 4, 0⟩ : Vec3).length = (⟨3, 4, 0⟩ : Vec3).length ∧
      (⟨⟨0, 0, 0⟩, ⟨0, 0, 1⟩, ⟨1, 0, 0⟩⟩ : GlobalTransform).right.dot ⟨-3, 4, 0⟩ =
        -((⟨⟨0, 0, 0⟩, ⟨0, 0, 1⟩, ⟨1, 0, 0⟩⟩ : GlobalTransform).right.dot ⟨3, 4, 0⟩) ∧
      panningOf ⟨⟨0, 0, 0⟩, ⟨0, 0, 1⟩, ⟨1, 0, 0⟩⟩ ⟨-3, 4, 0⟩ =
        1 - panningOf ⟨⟨0, 0, 0⟩, ⟨0, 0, 1⟩, ⟨1, 0, 0⟩⟩ ⟨3, 4, 0⟩) ∧
    ((⟨⟨0, 0, 0⟩, ⟨0, 0, 1⟩, ⟨1, 0, 0⟩⟩ : GlobalTransform).right.dot ⟨0, 0, 7⟩ = 0 ∧
      panningOf ⟨⟨0, 0, 0⟩, ⟨0, 0, 1⟩, ⟨1, 0, 0⟩⟩ ⟨0, 0, 7⟩ = 0.5) := by
  have hlen : (⟨-3, 4, 0⟩ : Vec3).length = (⟨3, 4, 0⟩ : Vec3).length := by
    simp only [Vec3.length, Vec3.length_squared, Vec3.dot]
    norm_num
  have hdot : (⟨⟨0, 0, 0⟩, ⟨0, 0, 1⟩, ⟨1, 0, 0⟩⟩ : GlobalTransform).right.dot ⟨-3, 4, 0⟩ =
      -((⟨⟨0, 0, 0⟩, ⟨0, 0, 1⟩, ⟨1, 0, 0⟩⟩ : GlobalTransform).right.dot ⟨3, 4, 0⟩) := by
    norm_num [Vec3.dot]
  have hperp : (⟨⟨0, 0, 0⟩, ⟨0, 0, 1⟩, ⟨1, 0, 0⟩⟩ : GlobalTransform).right.dot ⟨0, 0, 7⟩ = 0 := by
    norm_num [Vec3.dot]
  exact ⟨⟨hlen, hdot, panning_cosine_and_symmetry.2.1 _ _ _ hlen hdot⟩,
    ⟨hperp, panning_cosine_and_symmetry.2.2 _ _ hperp⟩⟩

/-- Direct volume is strictly increasing as distance decreases, for fixed
range and fixed positive directional factors (C7). -/
theorem directVolume_strict_antitone (rt et₁ et₂ : GlobalTransform)
    (r : AudioReceiver) (e : AudioEmitter)
    (hback : GlobalTransform.back et₁ = GlobalTransform.back et₂)
    (hdir : (soundPath rt et₁).normalize_or_zero = (soundPath rt et₂).normalize_or_zero)
    (h0 : 0 < (soundPath rt et₁).length)
    (hlt : (soundPath rt et₁).length < (soundPath rt et₂).length)
    (hR : 0 < e.range)
    (hef : 0 < lerp 1 (et₁.back.dot (soundPath rt et₁).normalize_or_zero * 0.5 + 0.5)
      e.self_occlusion)
    (hlf : 0 < lerp 1 (rt.forward.dot (soundPath rt et₁).normalize_or_zero * 0.5 + 0.5)
      r.self_occlusion) :
    directVolume rt et₂ r e < directVolume rt et₁ r e := by
  have key : ∀ et : GlobalTransform,
      directVolume rt et r e =
        4 * (4 * e.range / (soundPath rt et).length) *
          lerp 1 (et.back.dot (soundPath rt et).normalize_or_zero * 0.5 + 0.5)
            e.self_occlusion *
          lerp 1 (rt.forward.dot (soundPath rt et).normalize_or_zero * 0.5 + 0.5)
            r.self_occlusion :=
    fun et => rfl
  rw [key, key, ← hdir, ← hback]
  have hv : 4 * e.range / (soundPath rt et₂).length <
      4 * e.range / (soundPath rt et₁).length :=
    div_lt_div_of_pos_left (by positivity) h0 hlt
  have h4 : 4 * (4 * e.range / (soundPath rt et₂).length) <
      4 * (4 * e.range / (soundPath rt et₁).length) := by linarith
  exact mul_lt_mul_of_pos_right (mul_lt_mul_of_pos_right h4 hef) hlf

/-- Witness for `directVolume_strict_antitone`: listener at the origin,
emitters on the `+X` axis at distances 1 and 2, range 1, occlusions 0. -/
theorem directVolume_strict_antitone_witness :
    (soundPath ⟨⟨0, 0, 0⟩, ⟨0, 0, 1⟩, ⟨1, 0, 0⟩⟩
        ⟨⟨1, 0, 0⟩, ⟨0, 0, 1⟩, ⟨1, 0, 0⟩⟩).normalize_or_zero =
      (soundPath ⟨⟨0, 0, 0⟩, ⟨0, 0, 1⟩, ⟨1, 0, 0⟩⟩
        ⟨⟨2, 0, 0⟩, ⟨0, 0, 1⟩, ⟨1, 0, 0⟩⟩).normalize_or_zero ∧
    0 < (soundPath ⟨⟨0, 0, 0⟩, ⟨0, 0, 1⟩, ⟨1, 0, 0⟩⟩
        ⟨⟨1, 0, 0⟩, ⟨0, 0, 1⟩, ⟨1, 0, 0⟩⟩).length ∧
    (soundPath ⟨⟨0, 0, 0⟩, ⟨0, 0, 1⟩, ⟨1, 0, 0⟩⟩
        ⟨⟨1, 0, 0⟩, ⟨0, 0, 1⟩, ⟨1, 0, 0⟩⟩).length <
      (soundPath ⟨⟨0, 0, 0⟩, ⟨0, 0, 1⟩, ⟨1, 0, 0⟩⟩
        ⟨⟨2, 0, 0⟩, ⟨0, 0, 1⟩, ⟨1, 0, 0⟩⟩).length ∧
    directVolume ⟨⟨0, 0, 0⟩, ⟨0, 0, 1⟩, ⟨1, 0, 0⟩⟩ ⟨⟨2, 0, 0⟩, ⟨0, 0, 1⟩, ⟨1, 0, 0⟩⟩
        ⟨0⟩ ⟨0, 1, []⟩ <
      directVolume ⟨⟨0, 0, 0⟩, ⟨0, 0, 1⟩, ⟨1, 0, 0⟩⟩ ⟨⟨1, 0, 0⟩, ⟨0, 0, 1⟩, ⟨1, 0, 0⟩⟩
        ⟨0⟩ ⟨0, 1, []⟩ := by
  have hl1 : (soundPath ⟨⟨0, 0, 0⟩, ⟨0, 0, 1⟩, ⟨1, 0, 0⟩⟩
      ⟨⟨1, 0, 0⟩, ⟨0, 0, 1⟩, ⟨1, 0, 0⟩⟩).length = 1 := by
    simp only [soundPath, Vec3.sub, Vec3.length, Vec3.length_squared, Vec3.dot]
    exact sqrt_eval (by norm_num) (by norm_num)
  have hl2 : (soundPath ⟨⟨0, 0, 0⟩, ⟨0, 0, 1⟩, ⟨1, 0, 0⟩⟩
      ⟨⟨2, 0, 0⟩, ⟨0, 0, 1⟩, ⟨1, 0, 0⟩⟩).length = 2 := by
    simp only [soundPath, Vec3.sub, Vec3.length, Vec3.length_squared, Vec3.dot]
    exact sqrt_eval (by norm_num) (by norm_num)
  have hdir : (soundPath ⟨⟨0, 0, 0⟩, ⟨0, 0, 1⟩, ⟨1, 0, 0⟩⟩
      ⟨⟨1, 0, 0⟩, ⟨0, 0, 1⟩, ⟨1, 0, 0⟩⟩).normalize_or_zero =
      (soundPath ⟨⟨0, 0, 0⟩, ⟨0, 0, 1⟩, ⟨1, 0, 0⟩⟩
        ⟨⟨2, 0, 0⟩, ⟨0, 0, 1⟩, ⟨1, 0, 0⟩⟩).normalize_or_zero := by
    rw [normalize_or_zero_eq _ 1 (by norm_num) hl1, normalize_or_zero_eq _ 2 (by norm_num) hl2]
    simp only [soundPath, Vec3.sub, Vec3.mul, Vec3.mk.injEq]
    norm_num
  have h0 : 0 < (soundPath ⟨⟨0, 0, 0⟩, ⟨0, 0, 1⟩, ⟨1, 0, 0⟩⟩
      ⟨⟨1, 0, 0⟩, ⟨0, 0, 1⟩, ⟨1, 0, 0⟩⟩).length := by rw [hl1]; norm_num
  have hlt : (soundPath ⟨⟨0, 0, 0⟩, ⟨0, 0, 1⟩, ⟨1, 0, 0⟩⟩
      ⟨⟨1, 0, 0⟩, ⟨0, 0, 1⟩, ⟨1, 0, 0⟩⟩).length <
      (soundPath ⟨⟨0, 0, 0⟩, ⟨0, 0, 1⟩, ⟨1, 0, 0⟩⟩
        ⟨⟨2, 0, 0⟩, ⟨0, 0, 1⟩, ⟨1, 0, 0⟩⟩).length := by rw [hl1, hl2]; norm_num
  refine ⟨hdir, h0, hlt, ?_⟩
  exact directVolume_strict_antitone _ _ _ _ _ rfl hdir h0 hlt (by norm_num)
    (by simp [lerp]) (by simp [lerp])

lemma directVolume_occlusion_zero (rt et : GlobalTransform) (range : ℝ)
    (instances : List Nat) :
    directVolume rt et ⟨0⟩ ⟨0, range, instances⟩ =
      4 * (4 * range / (soundPath rt et).length) := by
  simp [directVolume, lerp]

lemma panningOf_eval (rt : GlobalTransform) (sp : Vec3) :
    panningOf rt sp = (rt.right.dot sp / (rt.right.length * sp.length) + 1) / 2 := by
  rw [panningOf, cos_angle_between]

/-- Direct volume written by the update pass is `4 * base_volume * ef * lf`
with `base_volume = 4 * range / dist` and lerp-based factors `ef`, `lf`, and
the pass stores exactly that value (with the panning) in each of the
emitter's instances; in the concrete scenario (listener at the origin facing
`+Z` with right `+X`, emitter at `(10,0,0)`, range 5, occlusions 0) the
written volume is 8 and the written panning is 1 (C1). -/
theorem update_writes_direct_volume_and_scenario :
    (∀ (rt et : GlobalTransform) (r : AudioReceiver) (e : AudioEmitter) (a : Assets)
        (h : Nat) (i : AudioInstance),
      h ∈ e.instances → a.get h = some i → (soundPath rt et).length ≠ 0 →
      directVolume rt et r e =
          4 * (4 * e.range / (soundPath rt et).length) *
            lerp 1 (et.back.dot (soundPath rt et).normalize_or_zero * 0.5 + 0.5)
              e.self_occlusion *
            lerp 1 (rt.forward.dot (soundPath rt et).normalize_or_zero * 0.5 + 0.5)
              r.self_occlusion ∧
        (writeEmitter rt r et e a).get h =
          some { i with volume := directVolume rt et r e,
                        panning := panningOf rt (soundPath rt et) }) ∧
    (∀ (md v₀ p₀ : ℝ) (st : PlaybackState) (f rr : Vec3),
      (SpacialAudio.update ⟨md⟩ ⟨⟨0, 0, 0⟩, ⟨0, 0, 1⟩, ⟨1, 0, 0⟩⟩ ⟨0⟩
          [(⟨⟨10, 0, 0⟩, f, rr⟩, ⟨0, 5, [7]⟩)] [(7, ⟨v₀, p₀, st⟩)]).get 7 =
        some ⟨8, 1, st⟩) := by
  constructor
  · intro rt et r e a h i hmem hget _
    refine ⟨rfl, ?_⟩
    rw [writeEmitter_get, if_pos hmem, hget]
    rfl
  · intro md v₀ p₀ st f rr
    have hlen : (soundPath ⟨⟨0, 0, 0⟩, ⟨0, 0, 1⟩, ⟨1, 0, 0⟩⟩
        ⟨⟨10, 0, 0⟩, f, rr⟩).length = 10 := by
      simp only [soundPath, Vec3.sub, Vec3.length, Vec3.length_squared, Vec3.dot]
      exact sqrt_eval (by norm_num) (by norm_num)
    have hdv : directVolume ⟨⟨0, 0, 0⟩, ⟨0, 0, 1⟩, ⟨1, 0, 0⟩⟩ ⟨⟨10, 0, 0⟩, f, rr⟩
        ⟨0⟩ ⟨0, 5, [7]⟩ = 8 := by
      rw [directVolume_occlusion_zero, hlen]
      norm_num
    have hr1 : (⟨⟨0, 0, 0⟩, ⟨0, 0, 1⟩, ⟨1, 0, 0⟩⟩ : GlobalTransform).right.length = 1 := by
      simp only [Vec3.length, Vec3.length_squared, Vec3.dot]
      exact sqrt_eval (by norm_num) (by norm_num)
    have hpan : panningOf ⟨⟨0, 0, 0⟩, ⟨0, 0, 1⟩, ⟨1, 0, 0⟩⟩
        (soundPath ⟨⟨0, 0, 0⟩, ⟨0, 0, 1⟩, ⟨1, 0, 0⟩⟩ ⟨⟨10, 0, 0⟩, f, rr⟩) = 1 := by
      rw [panningOf_eval, hlen, hr1]
      simp only [soundPath, Vec3.sub, Vec3.dot]
      norm_num
    have h1 : (SpacialAudio.update ⟨md⟩ ⟨⟨0, 0, 0⟩, ⟨0, 0, 1⟩, ⟨1, 0, 0⟩⟩ ⟨0⟩
        [(⟨⟨10, 0, 0⟩, f, rr⟩, ⟨0, 5, [7]⟩)] [(7, ⟨v₀, p₀, st⟩)]).get 7 =
        (writeEmitter ⟨⟨0, 0, 0⟩, ⟨0, 0, 1⟩, ⟨1, 0, 0⟩⟩ ⟨0⟩ ⟨⟨10, 0, 0⟩, f, rr⟩
          ⟨0, 5, [7]⟩ [(7, ⟨v₀, p₀, st⟩)]).get 7 := rfl
    rw [h1, writeEmitter_get, if_pos (by simp), get_cons, if_pos rfl]
    show some (AudioInstance.mk
        (directVolume ⟨⟨0, 0, 0⟩, ⟨0, 0, 1⟩, ⟨1, 0, 0⟩⟩ ⟨⟨10, 0, 0⟩, f, rr⟩
          ⟨0⟩ ⟨0, 5, [7]⟩)
        (panningOf ⟨⟨0, 0, 0⟩, ⟨0, 0, 1⟩, ⟨1, 0, 0⟩⟩
          (soundPath ⟨⟨0, 0, 0⟩, ⟨0, 0, 1⟩, ⟨1, 0, 0⟩⟩ ⟨⟨10, 0, 0⟩, f, rr⟩)) st) =
      some (AudioInstance.mk 8 1 st)
    rw [hdv, hpan]

/-- Witness for `update_writes_direct_volume_and_scenario`: the general part
applied at the scenario geometry itself, with one instance in the store. -/
theorem update_writes_direct_volume_and_scenario_witness :
    (7 ∈ (⟨0, 5, [7]⟩ : AudioEmitter).instances ∧
      Assets.get [(7, ⟨2, 0.5, PlaybackState.playing⟩)] 7 =
        some ⟨2, 0.5, PlaybackState.playing⟩ ∧
      (soundPath ⟨⟨0, 0, 0⟩, ⟨0, 0, 1⟩, ⟨1, 0, 0⟩⟩
        ⟨⟨10, 0, 0⟩, ⟨0, 0, 1⟩, ⟨1, 0, 0⟩⟩).length ≠ 0) ∧
    (writeEmitter ⟨⟨0, 0, 0⟩, ⟨0, 0, 1⟩, ⟨1, 0, 0⟩⟩ ⟨0⟩
        ⟨⟨10, 0, 0⟩, ⟨0, 0, 1⟩, ⟨1, 0, 0⟩⟩ ⟨0, 5, [7]⟩
        [(7, ⟨2, 0.5, PlaybackState.playing⟩)]).get 7 =
      some { volume := directVolume ⟨⟨0, 0, 0⟩, ⟨0, 0, 1⟩, ⟨1, 0, 0⟩⟩
                ⟨⟨10, 0, 0⟩, ⟨0, 0, 1⟩, ⟨1, 0, 0⟩⟩ ⟨0⟩ ⟨0, 5, [7]⟩,
             panning := panningOf ⟨⟨0, 0, 0⟩, ⟨0, 0, 1⟩, ⟨1, 0, 0⟩⟩
                (soundPath ⟨⟨0, 0, 0⟩, ⟨0, 0, 1⟩, ⟨1, 0, 0⟩⟩
                  ⟨⟨10, 0, 0⟩, ⟨0, 0, 1⟩, ⟨1, 0, 0⟩⟩),
             state := PlaybackState.playing } ∧
    (SpacialAudio.update ⟨25⟩ ⟨⟨0, 0, 0⟩, ⟨0, 0, 1⟩, ⟨1, 0, 0⟩⟩ ⟨0⟩
        [(⟨⟨10, 0, 0⟩, ⟨0, 0, 1⟩, ⟨1, 0, 0⟩⟩, ⟨0, 5, [7]⟩)]
        [(7, ⟨2, 0.5, PlaybackState.playing⟩)]).get 7 =
      some ⟨8, 1, PlaybackState.playing⟩ := by
  have hmem : 7 ∈ (⟨0, 5, [7]⟩ : AudioEmitter).instances := by simp
  have hget : Assets.get [(7, ⟨2, 0.5, PlaybackState.playing⟩)] 7 =
      some ⟨2, 0.5, PlaybackState.playing⟩ := rfl
  have hlen : (soundPath ⟨⟨0, 0, 0⟩, ⟨0, 0, 1⟩, ⟨1, 0, 0⟩⟩
      ⟨⟨10, 0, 0⟩, ⟨0, 0, 1⟩, ⟨1, 0, 0⟩⟩).length ≠ 0 := by
    have : (soundPath ⟨⟨0, 0, 0⟩, ⟨0, 0, 1⟩, ⟨1, 0, 0⟩⟩
        ⟨⟨10, 0, 0⟩, ⟨0, 0, 1⟩, ⟨1, 0, 0⟩⟩).length = 10 := by
      simp only [soundPath, Vec3.sub, Vec3.length, Vec3.length_squared, Vec3.dot]
      exact sqrt_eval (by norm_num) (by norm_num)
    rw [this]
    norm_num
  exact ⟨⟨hmem, hget, hlen⟩,
    (update_writes_direct_volume_and_scenario.1 _ _ _ _ _ 7 _ hmem hget hlen).2,
    update_writes_direct_volume_and_scenario.2 25 2 0.5 PlaybackState.playing _ _⟩

/-- Extended value of an `f32` computation: a finite real (rounding
idealized), one of the two infinities, or NaN.  Used to express what the
unguarded division at zero distance produces under IEEE 754 semantics. -/
inductive F where
  | fin : ℝ → F
  | pinf : F
  | ninf : F
  | nan : F

/-- An `F` value is finite exactly when it is a real number. -/
def F.isFinite : F → Bool
  | F.fin _ => true
  | _ => false

/-- IEEE-754 multiplication on extended values (finite products exact). -/
noncomputable def F.mul : F → F → F
  | F.nan, _ => F.nan
  | _, F.nan => F.nan
  | F.fin x, F.fin y => F.fin (x * y)
  | F.fin x, F.pinf => if 0 < x then F.pinf else if x < 0 then F.ninf else F.nan
  | F.fin x, F.ninf => if 0 < x then F.ninf else if x < 0 then F.pinf else F.nan
  | F.pinf, F.fin y => if 0 < y then F.pinf else if y < 0 then F.ninf else F.nan
  | F.ninf, F.fin y => if 0 < y then F.ninf else if y < 0 then F.pinf else F.nan
  | F.pinf, F.pinf => F.pinf
  | F.pinf, F.ninf => F.ninf
  | F.ninf, F.pinf => F.ninf
  | F.ninf, F.ninf => F.pinf

/-- IEEE-754 division on extended values.  The zero divisor is treated as
`+0`, which is the only zero a `Vec3` length (a square root) produces. -/
noncomputable def F.div : F → F → F
  | F.nan, _ => F.nan
  | _, F.nan => F.nan
  | F.fin x, F.fin y =>
    if y = 0 then (if 0 < x then F.pinf else if x < 0 then F.ninf else F.nan)
    else F.fin (x / y)
  | F.fin _, F.pinf => F.fin 0
  | F.fin _, F.ninf => F.fin 0
  | F.pinf, F.fin y => if 0 ≤ y then F.pinf else F.ninf
  | F.ninf, F.fin y => if 0 ≤ y then F.ninf else F.pinf
  | F.pinf, _ => F.nan
  | F.ninf, _ => F.nan

/-- The volume pipeline of `spacial.rs` lines 79-83 evaluated in extended
`f32` values: `4. * range / dist` then `4. * volume * lerp(..) * lerp(..)`,
with the distance and the two (finite) dot products passed in. -/
noncomputable def directVolumeF (range dist dot_e so_e dot_l so_l : ℝ) : F :=
  let volume := F.div (F.fin (4 * range)) (F.fin dist)
  F.mul
    (F.mul (F.mul (F.fin 4) volume) (F.fin (lerp 1 (dot_e * 0.5 + 0.5) so_e)))
    (F.fin (lerp 1 (dot_l * 0.5 + 0.5) so_l))

lemma soundPath_self (rt et : GlobalTransform)
    (hpos : et.translation = rt.translation) : soundPath rt et = Vec3.zero := by
  rw [soundPath, hpos]
  simp [Vec3.sub, Vec3.zero]

lemma zero_length : Vec3.zero.length = 0 := by
  simp only [Vec3.length, Vec3.length_squared, Vec3.dot, Vec3.zero]
  norm_num

lemma normalize_or_zero_zero : Vec3.zero.normalize_or_zero = Vec3.zero := by
  rw [Vec3.normalize_or_zero, if_neg]
  rw [zero_length]
  norm_num

lemma dot_zero_right (v : Vec3) : v.dot Vec3.zero = 0 := by
  simp [Vec3.dot, Vec3.zero]

/-- At zero distance (emitter at the listener's position) the computed volume,
taken with IEEE f32 semantics, is positive infinity — non-finite, with no
guard — and the update pass still writes the computed volume and panning to
the emitter's instances without any clamp or error (C5). -/
theorem zero_distance_volume_nonfinite (rt et : GlobalTransform)
    (r : AudioReceiver) (e : AudioEmitter)
    (hpos : et.translation = rt.translation)
    (hR : 0 < e.range)
    (he1 : e.self_occlusion ≤ 1) (hr1 : r.self_occlusion ≤ 1) :
    (directVolumeF e.range (soundPath rt et).length
        (et.back.dot (soundPath rt et).normalize_or_zero) e.self_occlusion
        (rt.forward.dot (soundPath rt et).normalize_or_zero) r.self_occlusion =
      F.pinf ∧
      F.pinf.isFinite = false) ∧
    ∀ (a : Assets) (h : Nat) (i : AudioInstance), h ∈ e.instances →
      a.get h = some i →
      (writeEmitter rt r et e a).get h =
        some { i with volume := directVolume rt et r e,
                      panning := panningOf rt (soundPath rt et) } := by
  constructor
  · constructor
    · have hsp : soundPath rt et = Vec3.zero := soundPath_self rt et hpos
      rw [hsp, zero_length, normalize_or_zero_zero, dot_zero_right, dot_zero_right]
      have hef : 0 < lerp 1 ((0 : ℝ) * 0.5 + 0.5) e.self_occlusion := by
        simp only [lerp]
        nlinarith
      have hlf : 0 < lerp 1 ((0 : ℝ) * 0.5 + 0.5) r.self_occlusion := by
        simp only [lerp]
        nlinarith
      show F.mul (F.mul (F.mul (F.fin 4) (F.div (F.fin (4 * e.range)) (F.fin 0)))
          (F.fin (lerp 1 ((0 : ℝ) * 0.5 + 0.5) e.self_occlusion)))
          (F.fin (lerp 1 ((0 : ℝ) * 0.5 + 0.5) r.self_occlusion)) = F.pinf
      rw [show F.div (F.fin (4 * e.range)) (F.fin 0) = F.pinf from by
        simp only [F.div, if_pos]
        exact if_pos (by linarith)]
      rw [show F.mul (F.fin 4) F.pinf = F.pinf from by
        simp only [F.mul]
        rw [if_pos (by norm_num)]]
      rw [show ∀ y : ℝ, 0 < y → F.mul F.pinf (F.fin y) = F.pinf from fun y hy => by
        simp only [F.mul]
        rw [if_pos hy]]
      · exact (show ∀ y : ℝ, 0 < y → F.mul F.pinf (F.fin y) = F.pinf from fun y hy => by
          simp only [F.mul]
          rw [if_pos hy]) _ hlf
      · exact hef
    · rfl
  · intro a h i hmem hget
    rw [writeEmitter_get, if_pos hmem, hget]
    rfl

/-- Witness for `zero_distance_volume_nonfinite`: listener and emitter both
at the origin, range 1, occlusions 0, one playing instance. -/
theorem zero_distance_volume_nonfinite_witness :
    ((0 : ℝ) < 1 ∧
      (directVolumeF 1
          (soundPath ⟨⟨0, 0, 0⟩, ⟨0, 0, 1⟩, ⟨1, 0, 0⟩⟩
            ⟨⟨0, 0, 0⟩, ⟨0, 0, 1⟩, ⟨1, 0, 0⟩⟩).length
          ((⟨⟨0, 0, 0⟩, ⟨0, 0, 1⟩, ⟨1, 0, 0⟩⟩ : GlobalTransform).back.dot
            (soundPath ⟨⟨0, 0, 0⟩, ⟨0, 0, 1⟩, ⟨1, 0, 0⟩⟩
              ⟨⟨0, 0, 0⟩, ⟨0, 0, 1⟩, ⟨1, 0, 0⟩⟩).normalize_or_zero) 0
          ((⟨⟨0, 0, 0⟩, ⟨0, 0, 1⟩, ⟨1, 0, 0⟩⟩ : GlobalTransform).forward.dot
            (soundPath ⟨⟨0, 0, 0⟩, ⟨0, 0, 1⟩, ⟨1, 0, 0⟩⟩
              ⟨⟨0, 0, 0⟩, ⟨0, 0, 1⟩, ⟨1, 0, 0⟩⟩).normalize_or_zero) 0 =
        F.pinf ∧
        F.pinf.isFinite = false)) ∧
    (writeEmitter ⟨⟨0, 0, 0⟩, ⟨0, 0, 1⟩, ⟨1, 0, 0⟩⟩ ⟨0⟩
        ⟨⟨0, 0, 0⟩, ⟨0, 0, 1⟩, ⟨1, 0, 0⟩⟩ ⟨0, 1, [3]⟩
        [(3, ⟨2, 0.5, PlaybackState.playing⟩)]).get 3 =
      some { volume := directVolume ⟨⟨0, 0, 0⟩, ⟨0, 0, 1⟩, ⟨1, 0, 0⟩⟩
                ⟨⟨0, 0, 0⟩, ⟨0, 0, 1⟩, ⟨1, 0, 0⟩⟩ ⟨0⟩ ⟨0, 1, [3]⟩,
             panning := panningOf ⟨⟨0, 0, 0⟩, ⟨0, 0, 1⟩, ⟨1, 0, 0⟩⟩
                (soundPath ⟨⟨0, 0, 0⟩, ⟨0, 0, 1⟩, ⟨1, 0, 0⟩⟩
                  ⟨⟨0, 0, 0⟩, ⟨0, 0, 1⟩, ⟨1, 0, 0⟩⟩),
             state := PlaybackState.playing } := by
  have hmain := zero_distance_volume_nonfinite
    ⟨⟨0, 0, 0⟩, ⟨0, 0, 1⟩, ⟨1, 0, 0⟩⟩ ⟨⟨0, 0, 0⟩, ⟨0, 0, 1⟩, ⟨1, 0, 0⟩⟩
    ⟨0⟩ ⟨0, 1, [3]⟩ rfl (by norm_num) (by norm_num) (by norm_num)
  exact ⟨⟨by norm_num, hmain.1⟩,
    hmain.2 [(3, ⟨2, 0.5, PlaybackState.playing⟩)] 3
      ⟨2, 0.5, PlaybackState.playing⟩ (by simp) rfl⟩

end Spacial
